import Mathlib

/-!
Shallow embedding of the Studly backend (Hono + Prisma, Cloudflare Workers).

Each route handler that the claims mention is translated into a pure Lean
function over an explicit store (`DB`, lists of rows).  Prisma calls are
translated as follows:

* `findUnique { where: { id } }` and `findFirst { where }` become `List.find?`
  with the corresponding boolean predicate;
* `findMany { where, take, skip }` becomes `filter`, `drop`, `take`;
* `count { where }` becomes `(filter …).length`;
* `create` appends a row whose generated cuid is passed in as `newId`;
* `update { where: { id }, data }` maps the partial update over the list;
* `delete { where: { id } }` removes the rows with that id (`filter`); for
  the exercise delete, whose dependent relations carry ON DELETE RESTRICT
  in the migration, the call instead throws when dependents exist and the
  handler's catch path is taken;
* `mode: "insensitive"` string comparison becomes comparison of `toLower`.

Payloads are modelled after they passed the zod validator (`zValidator`
rejects invalid shapes before the handler body runs); the claims under
study are all about the handler bodies.  The JWT and SHA-256 digest are
external collaborators and appear as parameters (`hash : String → String`).
Timestamps are milliseconds (`Date.now()`), as natural numbers.
-/

namespace Studly

/-- Prisma `mode: "insensitive"` equality: compare the lower-cased strings,
character by character (`Char.toLower` over the underlying character
lists, which is how `String.toLower` lower-cases a string). -/
def ciEq (a b : String) : Bool := a.data.map Char.toLower == b.data.map Char.toLower

/-- Row of the `Classes` table (prisma/schema.prisma). -/
structure Classe where
  id : String
  nom : String
deriving DecidableEq

/-- Row of the `Matieres` table. -/
structure Matiere where
  id : String
  nom : String
  description : Option String := none
  classesId : String
deriving DecidableEq

/-- Row of the `Lecons` table. -/
structure Lecon where
  id : String
  nom : String
  description : Option String := none
  matieresId : String
deriving DecidableEq

/-- Row of the `SousLecons` table. -/
structure SousLecon where
  id : String
  nom : String
  description : Option String := none
  leconsId : String
deriving DecidableEq

/-- Row of the `Exercices` table.  `typesExercice` is kept as a string, the
form in which the handlers compare it. -/
structure Exercice where
  id : String
  nom : String
  description : Option String := none
  matieresId : String
  sousLeconsId : Option String := none
  leconId : Option String := none
  typesExercice : String := "QCM"
deriving DecidableEq

/-- Row of the `OptionsQCM` table. -/
structure OptionQCM where
  id : String
  nom : String
  description : Option String := none
  exercicesId : String
  points : Option Int := none
  isCorrect : Bool := false
  isSelected : Bool := false
deriving DecidableEq

/-- Row of the `Reponses` table (only the columns the handlers use). -/
structure Reponse where
  id : String
  nom : String
  exercicesId : String
deriving DecidableEq

/-- Row of the `LeconsUtilisateur` join table. -/
structure LeconUtilisateur where
  id : String
  leconsId : String
  userId : String
deriving DecidableEq

/-- Row of the `User` table.  `typesUtilisateur` is kept as a string: the
register handler writes the literal string "USER" into it. -/
structure UserRec where
  id : String
  email : String
  nom : Option String := none
  prenom : Option String := none
  password : String
  dataInscription : Option String := none
  derniereConnexion : Option Nat := none
  typesUtilisateur : String := "ELEVE"
deriving DecidableEq

/-- Members of the `TypesUtilisateur` enum, prisma/schema.prisma lines 145-149. -/
def typesUtilisateurValues : List String := ["ADMIN", "ELEVE", "MODERATOR"]

/-- The store: one list of rows per table of the schema. -/
structure DB where
  classes : List Classe := []
  matieres : List Matiere := []
  lecons : List Lecon := []
  sousLecons : List SousLecon := []
  exercices : List Exercice := []
  optionsQCM : List OptionQCM := []
  reponses : List Reponse := []
  leconsUtilisateur : List LeconUtilisateur := []
  users : List UserRec := []
deriving DecidableEq

/-- Uniform JSON envelope: HTTP status plus the `error`/`message` strings. -/
structure Resp where
  status : Nat
  error : Option String := none
  message : Option String := none
deriving DecidableEq

/- ===================== Classes handlers (classes.ts) ===================== -/

/-- POST /classes (classes.ts lines 166-218): `findFirst` for a class whose
`nom` equals the payload name with `mode: "insensitive"`; 400 on a hit,
otherwise `create` and 201. -/
def classesPost (db : DB) (nom : String) (newId : String) : Resp × DB :=
  match db.classes.find? (fun c => ciEq c.nom nom) with
  | some _ =>
      ({ status := 400, error := some "Une classe avec ce nom existe déjà" }, db)
  | none =>
      ({ status := 201, message := some "Classe créée avec succès" },
       { db with classes := db.classes ++ [{ id := newId, nom := nom }] })

/-- PUT /classes/:id (classes.ts lines 221-299): 404 when the id does not
resolve; when a new `nom` is supplied and differs from the current one,
`findFirst` for another class (NOT the record itself) with the same name
`mode: "insensitive"`, 400 on a hit; otherwise `update`. -/
def classesPut (db : DB) (id : String) (nomOpt : Option String) : Resp × DB :=
  match db.classes.find? (fun c => c.id == id) with
  | none => ({ status := 404, error := some "Classe non trouvée" }, db)
  | some existing =>
      let conflict : Bool :=
        match nomOpt with
        | some nom =>
            nom != existing.nom &&
              (db.classes.find? (fun c => ciEq c.nom nom && c.id != id)).isSome
        | none => false
      if conflict then
        ({ status := 400, error := some "Une classe avec ce nom existe déjà" }, db)
      else
        ({ status := 200, message := some "Classe mise à jour avec succès" },
         { db with classes := db.classes.map (fun (c : Classe) =>
             if c.id == id then { c with nom := nomOpt.getD c.nom } else c) })

/-- DELETE /classes/:id (classes.ts lines 302-368): 404 when the id does not
resolve; 400 when the class has at least one `Matieres` child; otherwise
delete the class row and 200. -/
def classesDelete (db : DB) (id : String) : Resp × DB :=
  match db.classes.find? (fun c => c.id == id) with
  | none => ({ status := 404, error := some "Classe non trouvée" }, db)
  | some _ =>
      let children := db.matieres.filter (fun m => m.classesId == id)
      if children.length > 0 then
        ({ status := 400,
           error := some ("Impossible de supprimer la classe car elle contient "
             ++ toString children.length ++ " matière(s)") }, db)
      else
        ({ status := 200, message := some "Classe supprimée avec succès" },
         { db with classes := db.classes.filter (fun c => c.id != id) })

/- ===================== Matieres handlers (unnamed/part_000) ===================== -/

/-- POST /matieres (part_000 lines 134-197): 400 when the referenced class
does not exist; then `findFirst` for a sibling with the same `nom` and
`classesId` — note: plain equality, no `mode: "insensitive"` — 400 on a
hit; otherwise `create` and 201. -/
def matieresPost (db : DB) (nom : String) (description : Option String)
    (classesId : String) (newId : String) : Resp × DB :=
  match db.classes.find? (fun c => c.id == classesId) with
  | none => ({ status := 400, error := some "La classe spécifiée n'existe pas" }, db)
  | some _ =>
      match db.matieres.find? (fun m => m.nom == nom && m.classesId == classesId) with
      | some _ =>
          ({ status := 400,
             error := some "Une matière avec ce nom existe déjà dans cette classe" }, db)
      | none =>
          ({ status := 201, message := some "Matière créée avec succès" },
           { db with matieres := db.matieres ++
               [{ id := newId, nom := nom, description := description,
                  classesId := classesId }] })

/-- Partial-update payload for PUT /matieres/:id. -/
structure MatiereUpdate where
  nom : Option String := none
  description : Option String := none
  classesId : Option String := none
deriving DecidableEq

/-- Application of a partial update to a `Matieres` row (`prisma.update`). -/
def applyMatiereUpdate (m : Matiere) (u : MatiereUpdate) : Matiere :=
  { m with
    nom := u.nom.getD m.nom,
    description := match u.description with | some d => some d | none => m.description,
    classesId := u.classesId.getD m.classesId }

/-- PUT /matieres/:id (part_000 lines 200-283): 404 when the id does not
resolve; 400 when a supplied `classesId` does not resolve; when a `nom` is
supplied (whether or not it changed), `findFirst` for another subject
(NOT the record itself) with the same `nom` — plain equality — in the
target class, 400 on a hit; otherwise `update`. -/
def matieresPut (db : DB) (id : String) (u : MatiereUpdate) : Resp × DB :=
  match db.matieres.find? (fun m => m.id == id) with
  | none => ({ status := 404, error := some "Matière non trouvée" }, db)
  | some existing =>
      if u.classesId.any (fun cid => (db.classes.find? (fun c => c.id == cid)).isNone) then
        ({ status := 400, error := some "La classe spécifiée n'existe pas" }, db)
      else
        let targetCid := u.classesId.getD existing.classesId
        let conflict : Bool :=
          match u.nom with
          | some nom =>
              (db.matieres.find? (fun m =>
                m.nom == nom && m.classesId == targetCid && m.id != id)).isSome
          | none => false
        if conflict then
          ({ status := 400,
             error := some "Une matière avec ce nom existe déjà dans cette classe" }, db)
        else
          ({ status := 200, message := some "Matière mise à jour avec succès" },
           { db with matieres := db.matieres.map (fun (m : Matiere) =>
               if m.id == id then applyMatiereUpdate m u else m) })

/-- DELETE /matieres/:id (part_000 lines 286-343): 404 when the id does not
resolve; 400 when the subject has a `Lecons` or an `Exercices` child;
otherwise delete the row and 200. -/
def matieresDelete (db : DB) (id : String) : Resp × DB :=
  match db.matieres.find? (fun m => m.id == id) with
  | none => ({ status := 404, error := some "Matière non trouvée" }, db)
  | some _ =>
      let lec := db.lecons.filter (fun l => l.matieresId == id)
      let exo := db.exercices.filter (fun e => e.matieresId == id)
      if lec.length > 0 ∨ exo.length > 0 then
        ({ status := 400,
           error := some "Impossible de supprimer la matière car elle contient des leçons ou des exercices" }, db)
      else
        ({ status := 200, message := some "Matière supprimée avec succès" },
         { db with matieres := db.matieres.filter (fun m => m.id != id) })

/- ===================== Lecons handlers (unnamed/part_002) ===================== -/

/-- POST /lecons/new (part_002 lines 222-303): 400 when the referenced
subject does not exist; then `findFirst` for a sibling lesson with the
same `nom` with `mode: "insensitive"` in the subject, 400 on a hit;
otherwise `create` and 201. -/
def leconsPostNew (db : DB) (nom : String) (description : Option String)
    (matieresId : String) (newId : String) : Resp × DB :=
  match db.matieres.find? (fun m => m.id == matieresId) with
  | none => ({ status := 400, error := some "La matière spécifiée n'existe pas" }, db)
  | some _ =>
      match db.lecons.find? (fun l => ciEq l.nom nom && l.matieresId == matieresId) with
      | some _ =>
          ({ status := 400,
             error := some "Une leçon avec ce nom existe déjà dans cette matière" }, db)
      | none =>
          ({ status := 201, message := some "Leçon créée avec succès" },
           { db with lecons := db.lecons ++
               [{ id := newId, nom := nom, description := description,
                  matieresId := matieresId }] })

/-- Partial-update payload for PUT /lecons/lecons/:id. -/
structure LeconUpdate where
  nom : Option String := none
  description : Option String := none
  matieresId : Option String := none
deriving DecidableEq

/-- Application of a partial update to a `Lecons` row (`prisma.update`). -/
def applyLeconUpdate (l : Lecon) (u : LeconUpdate) : Lecon :=
  { l with
    nom := u.nom.getD l.nom,
    description := match u.description with | some d => some d | none => l.description,
    matieresId := u.matieresId.getD l.matieresId }

/-- PUT /lecons/lecons/:id (part_002 lines 306-413): 404 when the id does not
resolve; 400 when a supplied `matieresId` differs from the current one and
does not resolve; when a `nom` is supplied and differs from the current
one, `findFirst` for another lesson (NOT the record itself) with the same
`nom` `mode: "insensitive"` in the target subject, 400 on a hit;
otherwise `update`. -/
def leconsPut (db : DB) (id : String) (u : LeconUpdate) : Resp × DB :=
  match db.lecons.find? (fun l => l.id == id) with
  | none => ({ status := 404, error := some "Leçon non trouvée" }, db)
  | some existing =>
      if u.matieresId.any (fun mid =>
          mid != existing.matieresId && (db.matieres.find? (fun m => m.id == mid)).isNone) then
        ({ status := 400, error := some "La matière spécifiée n'existe pas" }, db)
      else
        let targetMid := u.matieresId.getD existing.matieresId
        let conflict : Bool :=
          match u.nom with
          | some nom =>
              nom != existing.nom &&
                (db.lecons.find? (fun l =>
                  ciEq l.nom nom && l.matieresId == targetMid && l.id != id)).isSome
          | none => false
        if conflict then
          ({ status := 400,
             error := some "Une leçon avec ce nom existe déjà dans cette matière" }, db)
        else
          ({ status := 200, message := some "Leçon mise à jour avec succès" },
           { db with lecons := db.lecons.map (fun (l : Lecon) =>
               if l.id == id then applyLeconUpdate l u else l) })

/-- DELETE /lecons/lecons/:id (part_002 lines 416-488): 404 when the id does
not resolve; 400 when the lesson has a `SousLecons`, `Exercices` or
`LeconsUtilisateur` child; otherwise delete the row and 200. -/
def leconsDelete (db : DB) (id : String) : Resp × DB :=
  match db.lecons.find? (fun l => l.id == id) with
  | none => ({ status := 404, error := some "Leçon non trouvée" }, db)
  | some _ =>
      let sl := db.sousLecons.filter (fun s => s.leconsId == id)
      let exo := db.exercices.filter (fun e => e.leconId == some id)
      let lu := db.leconsUtilisateur.filter (fun x => x.leconsId == id)
      if sl.length > 0 ∨ exo.length > 0 ∨ lu.length > 0 then
        ({ status := 400,
           error := some "Impossible de supprimer la leçon car elle contient des sous-leçons, exercices ou est utilisée par des utilisateurs" }, db)
      else
        ({ status := 200, message := some "Leçon supprimée avec succès" },
         { db with lecons := db.lecons.filter (fun l => l.id != id) })

/- ===================== SousLecons handlers (utilisateurs.ts, second document) ===================== -/

/-- POST /souslecons/new (utilisateurs.ts lines 708-796): 400 when the
referenced lesson does not exist; then `findFirst` for a sibling
sub-lesson with the same `nom` with `mode: "insensitive"` in the lesson,
400 on a hit; otherwise `create` and 201. -/
def sousLeconsPostNew (db : DB) (nom : String) (description : Option String)
    (leconsId : String) (newId : String) : Resp × DB :=
  match db.lecons.find? (fun l => l.id == leconsId) with
  | none => ({ status := 400, error := some "La leçon spécifiée n'existe pas" }, db)
  | some _ =>
      match db.sousLecons.find? (fun s => ciEq s.nom nom && s.leconsId == leconsId) with
      | some _ =>
          ({ status := 400,
             error := some "Une sous-leçon avec ce nom existe déjà dans cette leçon" }, db)
      | none =>
          ({ status := 201, message := some "Sous-leçon créée avec succès" },
           { db with sousLecons := db.sousLecons ++
               [{ id := newId, nom := nom, description := description,
                  leconsId := leconsId }] })

/-- Partial-update payload for PUT /souslecons/:id. -/
structure SousLeconUpdate where
  nom : Option String := none
  description : Option String := none
  leconsId : Option String := none
deriving DecidableEq

/-- Application of a partial update to a `SousLecons` row. -/
def applySousLeconUpdate (s : SousLecon) (u : SousLeconUpdate) : SousLecon :=
  { s with
    nom := u.nom.getD s.nom,
    description := match u.description with | some d => some d | none => s.description,
    leconsId := u.leconsId.getD s.leconsId }

/-- PUT /souslecons/:id (utilisateurs.ts lines 799-910): 404 when the id does
not resolve; 400 when a supplied `leconsId` differs from the current one
and does not resolve; when a `nom` is supplied and differs from the
current one, `findFirst` for another sub-lesson (NOT the record itself)
with the same `nom` `mode: "insensitive"` in the target lesson, 400 on a
hit; otherwise `update`. -/
def sousLeconsPut (db : DB) (id : String) (u : SousLeconUpdate) : Resp × DB :=
  match db.sousLecons.find? (fun s => s.id == id) with
  | none => ({ status := 404, error := some "Sous-leçon non trouvée" }, db)
  | some existing =>
      if u.leconsId.any (fun lid =>
          lid != existing.leconsId && (db.lecons.find? (fun l => l.id == lid)).isNone) then
        ({ status := 400, error := some "La leçon spécifiée n'existe pas" }, db)
      else
        let targetLid := u.leconsId.getD existing.leconsId
        let conflict : Bool :=
          match u.nom with
          | some nom =>
              nom != existing.nom &&
                (db.sousLecons.find? (fun s =>
                  ciEq s.nom nom && s.leconsId == targetLid && s.id != id)).isSome
          | none => false
        if conflict then
          ({ status := 400,
             error := some "Une sous-leçon avec ce nom existe déjà dans cette leçon" }, db)
        else
          ({ status := 200, message := some "Sous-leçon mise à jour avec succès" },
           { db with sousLecons := db.sousLecons.map (fun (s : SousLecon) =>
               if s.id == id then applySousLeconUpdate s u else s) })

/-- DELETE /souslecons/:id (utilisateurs.ts lines 913-977): 404 when the id
does not resolve; 400 when the sub-lesson has an `Exercices` child;
otherwise delete the row and 200. -/
def sousLeconsDelete (db : DB) (id : String) : Resp × DB :=
  match db.sousLecons.find? (fun s => s.id == id) with
  | none => ({ status := 404, error := some "Sous-leçon non trouvée" }, db)
  | some _ =>
      let exo := db.exercices.filter (fun e => e.sousLeconsId == some id)
      if exo.length > 0 then
        ({ status := 400,
           error := some ("Impossible de supprimer la sous-leçon car elle contient "
             ++ toString exo.length ++ " exercice(s)") }, db)
      else
        ({ status := 200, message := some "Sous-leçon supprimée avec succès" },
         { db with sousLecons := db.sousLecons.filter (fun s => s.id != id) })

/- ===================== Exercices handlers (unnamed/part_001) ===================== -/

/-- Create payload for POST /exercices (zod `createExerciceSchema`). -/
structure ExerciceReq where
  nom : String
  description : Option String := none
  matieresId : String
  sousLeconsId : Option String := none
  leconId : Option String := none
  typesExercice : String := "QCM"
deriving DecidableEq

/-- POST /exercices (part_001 lines 69-139): the referenced subject is looked
up first and a miss answers 404 "Matière non trouvée"; a supplied
`sousLeconsId` or `leconId` that does not resolve also answers 404;
otherwise `create` and 201. -/
def exercicesPost (db : DB) (r : ExerciceReq) (newId : String) : Resp × DB :=
  if (db.matieres.find? (fun m => m.id == r.matieresId)).isNone then
    ({ status := 404, error := some "Matière non trouvée" }, db)
  else if r.sousLeconsId.any (fun sid =>
      (db.sousLecons.find? (fun s => s.id == sid)).isNone) then
    ({ status := 404, error := some "Sous-leçon non trouvée" }, db)
  else if r.leconId.any (fun lid =>
      (db.lecons.find? (fun l => l.id == lid)).isNone) then
    ({ status := 404, error := some "Leçon non trouvée" }, db)
  else
    ({ status := 201, message := some "Exercice créé avec succès" },
     { db with exercices := db.exercices ++
         [{ id := newId, nom := r.nom, description := r.description,
            matieresId := r.matieresId, sousLeconsId := r.sousLeconsId,
            leconId := r.leconId, typesExercice := r.typesExercice }] })

/-- Partial-update payload for PUT /exercices/:id (zod
`updateExerciceSchema`).  `sousLeconsId` and `leconId` are nullable in
the schema: the outer `Option` is presence in the payload, the inner one
distinguishes an explicit `null` (which clears the relation and, being
falsy, skips the existence check, exactly like absence) from an id. -/
structure ExerciceUpdate where
  nom : Option String := none
  description : Option String := none
  matieresId : Option String := none
  sousLeconsId : Option (Option String) := none
  leconId : Option (Option String) := none
  typesExercice : Option String := none
deriving DecidableEq

/-- Application of a partial update to an `Exercices` row (`prisma.update`). -/
def applyExerciceUpdate (e : Exercice) (u : ExerciceUpdate) : Exercice :=
  { e with
    nom := u.nom.getD e.nom,
    description := match u.description with | some d => some d | none => e.description,
    matieresId := u.matieresId.getD e.matieresId,
    sousLeconsId := match u.sousLeconsId with | some v => v | none => e.sousLeconsId,
    leconId := match u.leconId with | some v => v | none => e.leconId,
    typesExercice := u.typesExercice.getD e.typesExercice }

/-- PUT /exercices/:id (part_001 lines 255-333): 404 "Exercice non trouvé"
when the path id does not resolve; then each supplied (truthy) reference
is checked and a miss answers 404 — "Matière non trouvée", "Sous-leçon
non trouvée", "Leçon non trouvée" — before the `update` runs. -/
def exercicesPut (db : DB) (id : String) (u : ExerciceUpdate) : Resp × DB :=
  match db.exercices.find? (fun e => e.id == id) with
  | none => ({ status := 404, error := some "Exercice non trouvé" }, db)
  | some _ =>
      if u.matieresId.any (fun mid =>
          (db.matieres.find? (fun m => m.id == mid)).isNone) then
        ({ status := 404, error := some "Matière non trouvée" }, db)
      else if u.sousLeconsId.any (fun v => v.any (fun sid =>
          (db.sousLecons.find? (fun s => s.id == sid)).isNone)) then
        ({ status := 404, error := some "Sous-leçon non trouvée" }, db)
      else if u.leconId.any (fun v => v.any (fun lid =>
          (db.lecons.find? (fun l => l.id == lid)).isNone)) then
        ({ status := 404, error := some "Leçon non trouvée" }, db)
      else
        ({ status := 200, message := some "Exercice mis à jour avec succès" },
         { db with exercices := db.exercices.map (fun (e : Exercice) =>
             if e.id == id then applyExerciceUpdate e u else e) })

/-- Response of DELETE /exercices/:id: on success it carries the counts of
dependent `OptionsQCM` and `Reponses` rows (`deletedRelations`). -/
structure DeleteExoResp where
  status : Nat
  error : Option String := none
  message : Option String := none
  deletedOptions : Option Nat := none
  deletedReponses : Option Nat := none
deriving DecidableEq

/-- DELETE /exercices/:id (part_001 lines 336-373): 404 when the id does not
resolve; otherwise the handler has no cascade guard — the `_count` of
dependent options and answers is read together with the row and
`prisma.exercices.delete` is attempted unconditionally.  The migration
(part_003) declares ON DELETE RESTRICT on `OptionsQCM.exercicesId` and on
`Reponses.exercicesId` and the FK-enforcing store rejects the delete when
any dependent row exists, so the thrown foreign-key violation reaches the
catch block (lines 369-372), which answers 500 "Erreur serveur" with
nothing removed; with no dependent row the delete succeeds and 200
reports the (zero) counts as `deletedRelations`. -/
def exercicesDelete (db : DB) (id : String) : DeleteExoResp × DB :=
  match db.exercices.find? (fun e => e.id == id) with
  | none => ({ status := 404, error := some "Exercice non trouvé" }, db)
  | some _ =>
      let nOpts := (db.optionsQCM.filter (fun o => o.exercicesId == id)).length
      let nReps := (db.reponses.filter (fun r => r.exercicesId == id)).length
      if nOpts > 0 ∨ nReps > 0 then
        ({ status := 500, error := some "Erreur serveur" }, db)
      else
        ({ status := 200, message := some "Exercice supprimé avec succès",
           deletedOptions := some nOpts, deletedReponses := some nReps },
         { db with exercices := db.exercices.filter (fun e => e.id != id) })

/- ===================== OptionsQCM handlers (unnamed/part_001) ===================== -/

/-- Create payload for POST /options-qcm (zod `createOptionQCMSchema`,
without the `exercicesId`, which is passed separately). -/
structure OptionReq where
  nom : String
  description : Option String := none
  points : Option Int := none
  isCorrect : Bool := false
  isSelected : Bool := false
deriving DecidableEq

/-- POST /options-qcm (part_001 lines 378-421): 404 when the referenced
exercise does not resolve; 400 when its `typesExercice` is not "QCM";
otherwise `create` and 201. -/
def optionsQCMPost (db : DB) (exercicesId : String) (r : OptionReq)
    (newId : String) : Resp × DB :=
  match db.exercices.find? (fun e => e.id == exercicesId) with
  | none => ({ status := 404, error := some "Exercice non trouvé" }, db)
  | some ex =>
      if ex.typesExercice != "QCM" then
        ({ status := 400, error := some "Cet exercice n'est pas de type QCM" }, db)
      else
        ({ status := 201, message := some "Option QCM créée avec succès" },
         { db with optionsQCM := db.optionsQCM ++
             [{ id := newId, nom := r.nom, description := r.description,
                exercicesId := exercicesId, points := r.points,
                isCorrect := r.isCorrect, isSelected := r.isSelected }] })

/-- POST /options-qcm/bulk (part_001 lines 554-616): same two checks (404 on
a missing exercise, 400 on a non-QCM one); then all options are created in
one `$transaction`, each with `isSelected: false`. -/
def optionsQCMBulkPost (db : DB) (exercicesId : String) (opts : List OptionReq)
    (newIds : List String) : Resp × DB :=
  match db.exercices.find? (fun e => e.id == exercicesId) with
  | none => ({ status := 404, error := some "Exercice non trouvé" }, db)
  | some ex =>
      if ex.typesExercice != "QCM" then
        ({ status := 400, error := some "Cet exercice n'est pas de type QCM" }, db)
      else
        let created := (opts.zip newIds).map (fun p =>
          ({ id := p.2, nom := p.1.nom, description := p.1.description,
             exercicesId := exercicesId, points := p.1.points,
             isCorrect := p.1.isCorrect, isSelected := false } : OptionQCM))
        ({ status := 201, message := some (toString created.length ++ " options QCM créées avec succès") },
         { db with optionsQCM := db.optionsQCM ++ created })

/- ===================== User handlers (utilisateurs.ts, first document) ===================== -/

/-- Response of POST /users/login.  On success `tokenExp` is the `exp` field
of the freshly signed JWT payload. -/
structure LoginResp where
  status : Nat
  error : Option String := none
  message : Option String := none
  tokenExp : Option Nat := none
deriving DecidableEq

/-- POST /users/login (utilisateurs.ts lines 131-184).  `hash` is the external
SHA-256 hex digest of hash_password.ts; `verifyPassword p h` is
`hash p == h`.  `nowMs` is `Date.now()` in milliseconds; the signed
payload's `exp` is `Math.floor(Date.now() / 1000) + 72 * 60 * 60`.  An
unknown email and a wrong password both answer 400 with the same literal
message. -/
def loginPost (hash : String → String) (db : DB) (email password : String)
    (nowMs : Nat) : LoginResp × DB :=
  match db.users.find? (fun u => u.email == email) with
  | none => ({ status := 400, error := some "Email ou mot de passe incorrect" }, db)
  | some u =>
      if hash password == u.password then
        ({ status := 200, message := some "Connexion réussie",
           tokenExp := some (nowMs / 1000 + 72 * 60 * 60) },
         { db with users := db.users.map (fun (v : UserRec) =>
             if v.id == u.id then { v with derniereConnexion := some nowMs } else v) })
      else
        ({ status := 400, error := some "Email ou mot de passe incorrect" }, db)

/-- Response of POST /users/register: the created record is returned through
a `select` that lists id, email, nom, prenom, dataInscription,
typesUtilisateur and the timestamps — and not `password`; this structure
accordingly has no password field. -/
structure RegisterResp where
  status : Nat
  error : Option String := none
  userId : Option String := none
  userEmail : Option String := none
  userRole : Option String := none
deriving DecidableEq

/-- POST /users/register (utilisateurs.ts lines 74-128): 400 when the email is
already taken; otherwise the password is hashed and the user is created
with `typesUtilisateur: "USER"` — the literal in the source at line 103 —
and 201 returns the selected fields (no password). -/
def registerPost (hash : String → String) (db : DB) (email : String)
    (nom prenom : Option String) (password : String)
    (dataInscription : Option String) (newId : String) : RegisterResp × DB :=
  match db.users.find? (fun u => u.email == email) with
  | some _ =>
      ({ status := 400, error := some "Un utilisateur avec cet email existe déjà" }, db)
  | none =>
      ({ status := 201, userId := some newId, userEmail := some email,
         userRole := some "USER" },
       { db with users := db.users ++
           [{ id := newId, email := email, nom := nom, prenom := prenom,
              password := hash password, dataInscription := dataInscription,
              derniereConnexion := none, typesUtilisateur := "USER" }] })

/- ===================== GET /classes list endpoint (classes.ts, first document) ===================== -/

/-- JavaScript comparison `n < v` where `v` may be `undefined` (modelled as
`none`): any `<` comparison against `undefined` evaluates to `false`. -/
def jsLt (n : Nat) (v : Option Nat) : Bool :=
  match v with
  | none => false
  | some m => n < m

/-- The value of `console.log(...)` in JavaScript: `undefined`. -/
def consoleLogValue : Option Nat := none

/-- Pagination block of the list envelope; `total` is an `Option` because the
classes handler ends up serialising `undefined` there. -/
structure PaginationBlock where
  total : Option Nat
  limit : Nat
  offset : Nat
  hasMore : Bool
deriving DecidableEq

/-- Envelope of GET /classes. -/
structure ClassesListResp where
  status : Nat
  dataRows : List Classe
  pagination : PaginationBlock
deriving DecidableEq

/-- GET /classes (classes.ts, first document, lines 40-100).  The handler
builds a `where` filter from `search` (lines 57-64) but never passes it to
`findMany` or to `count`; the `Promise.all` array (lines 67-76) is
`[findMany(...), console.log("je suis ici"), count()]`, so the
destructuring `[classes, total]` binds `total` to the `console.log`
value — `undefined` — and `hasMore` is `offset + limit < undefined`,
which is `false`.  Row order stands in for `orderBy createdAt desc`;
ordering does not affect the pagination fields. -/
def classesGetList (db : DB) (limit offset : Nat) (search : Option String) :
    ClassesListResp :=
  let _whereUnused := search
  let rows := (db.classes.drop offset).take limit
  let total : Option Nat := consoleLogValue
  { status := 200, dataRows := rows,
    pagination :=
      { total := total, limit := limit, offset := offset,
        hasMore := jsLt (offset + limit) total } }

/- ===================== Handler boundary with a failing storage layer (C8) ===================== -/

/-- Removing, from a list whose keys under `f` are pairwise distinct, exactly
the rows whose key equals the key of the member `a` shortens the list by
one. -/
theorem length_filter_key_ne {α : Type} (f : α → String) :
    ∀ (l : List α) (a : α), a ∈ l → (l.map f).Nodup →
      (l.filter (fun x => f x != f a)).length + 1 = l.length := by
  intro l
  induction l with
  | nil => intro a ha _; cases ha
  | cons b t ih =>
    intro a ha hnd
    rw [List.map_cons, List.nodup_cons] at hnd
    by_cases hba : f b = f a
    · have ht : t.filter (fun x => f x != f a) = t := by
        apply List.filter_eq_self.mpr
        intro x hx
        have hne : f x ≠ f a := by
          intro he
          exact hnd.1 (by rw [hba, ← he]; exact List.mem_map_of_mem f hx)
        simpa [bne_iff_ne] using hne
      have hb : (f b != f a) = false := by simp [hba]
      simp [List.filter_cons, hb, ht]
    · have hat : a ∈ t := by
        rcases List.mem_cons.mp ha with h | h
        · exact absurd (congrArg f h.symm) hba
        · exact h
      have hrec := ih a hat hnd.2
      have hb : (f b != f a) = true := by simpa [bne_iff_ne] using hba
      simp only [List.filter_cons, hb, if_true, List.length_cons]
      omega

/- ===================== Claim C2 ===================== -/

/-- C2: for every guarded parent resource (Class, Subject, Lesson, SubLesson),
the delete endpoint applied to a parent having at least one dependent
child row in any of its guarded relations answers 400 and leaves the
whole store (parent and children included) unchanged; applied to a parent
with zero dependent children it answers 200 and removes exactly the rows
bearing that parent id — exactly that parent row when row ids are
pairwise distinct — touching no other table. -/
theorem cascade_guard_blocks_then_deletes :
    (∀ (db : DB) (id : String) (p : Classe),
        db.classes.find? (fun c => c.id == id) = some p →
        (db.matieres.filter (fun m => m.classesId == id) ≠ [] →
            (classesDelete db id).1.status = 400 ∧ (classesDelete db id).2 = db)
        ∧ (db.matieres.filter (fun m => m.classesId == id) = [] →
            (classesDelete db id).1.status = 200
            ∧ (classesDelete db id).2 =
                { db with classes := db.classes.filter (fun c => c.id != id) }
            ∧ ((db.classes.map (fun c => c.id)).Nodup →
                (classesDelete db id).2.classes.length + 1 = db.classes.length)))
    ∧
    (∀ (db : DB) (id : String) (p : Matiere),
        db.matieres.find? (fun m => m.id == id) = some p →
        ((db.lecons.filter (fun l => l.matieresId == id) ≠ [] ∨
          db.exercices.filter (fun e => e.matieresId == id) ≠ []) →
            (matieresDelete db id).1.status = 400 ∧ (matieresDelete db id).2 = db)
        ∧ (db.lecons.filter (fun l => l.matieresId == id) = [] →
           db.exercices.filter (fun e => e.matieresId == id) = [] →
            (matieresDelete db id).1.status = 200
            ∧ (matieresDelete db id).2 =
                { db with matieres := db.matieres.filter (fun m => m.id != id) }
            ∧ ((db.matieres.map (fun m => m.id)).Nodup →
                (matieresDelete db id).2.matieres.length + 1 = db.matieres.length)))
    ∧
    (∀ (db : DB) (id : String) (p : Lecon),
        db.lecons.find? (fun l => l.id == id) = some p →
        ((db.sousLecons.filter (fun s => s.leconsId == id) ≠ [] ∨
          db.exercices.filter (fun e => e.leconId == some id) ≠ [] ∨
          db.leconsUtilisateur.filter (fun x => x.leconsId == id) ≠ []) →
            (leconsDelete db id).1.status = 400 ∧ (leconsDelete db id).2 = db)
        ∧ (db.sousLecons.filter (fun s => s.leconsId == id) = [] →
           db.exercices.filter (fun e => e.leconId == some id) = [] →
           db.leconsUtilisateur.filter (fun x => x.leconsId == id) = [] →
            (leconsDelete db id).1.status = 200
            ∧ (leconsDelete db id).2 =
                { db with lecons := db.lecons.filter (fun l => l.id != id) }
            ∧ ((db.lecons.map (fun l => l.id)).Nodup →
                (leconsDelete db id).2.lecons.length + 1 = db.lecons.length)))
    ∧
    (∀ (db : DB) (id : String) (p : SousLecon),
        db.sousLecons.find? (fun s => s.id == id) = some p →
        (db.exercices.filter (fun e => e.sousLeconsId == some id) ≠ [] →
            (sousLeconsDelete db id).1.status = 400 ∧ (sousLeconsDelete db id).2 = db)
        ∧ (db.exercices.filter (fun e => e.sousLeconsId == some id) = [] →
            (sousLeconsDelete db id).1.status = 200
            ∧ (sousLeconsDelete db id).2 =
                { db with sousLecons := db.sousLecons.filter (fun s => s.id != id) }
            ∧ ((db.sousLecons.map (fun s => s.id)).Nodup →
                (sousLeconsDelete db id).2.sousLecons.length + 1 = db.sousLecons.length))) := by
  refine ⟨?_, ?_, ?_, ?_⟩
  · intro db id p hfind
    constructor
    · intro hne
      have hpos : 0 < (db.matieres.filter (fun m => m.classesId == id)).length :=
        List.length_pos.mpr hne
      constructor <;> simp [classesDelete, hfind, hpos]
    · intro hnil
      have hz : (db.matieres.filter (fun m => m.classesId == id)).length = 0 := by
        rw [hnil]; rfl
      refine ⟨by simp [classesDelete, hfind, hz], by simp [classesDelete, hfind, hz], ?_⟩
      intro hnodup
      have hmem := List.mem_of_find?_eq_some hfind
      have hpid : p.id = id := by simpa using List.find?_some hfind
      have hlen := length_filter_key_ne (fun c : Classe => c.id) db.classes p hmem hnodup
      simp only [hpid] at hlen
      simpa [classesDelete, hfind, hz] using hlen
  · intro db id p hfind
    constructor
    · intro hne
      have hpos : 0 < (db.lecons.filter (fun l => l.matieresId == id)).length ∨
          0 < (db.exercices.filter (fun e => e.matieresId == id)).length := by
        rcases hne with h | h
        · exact Or.inl (List.length_pos.mpr h)
        · exact Or.inr (List.length_pos.mpr h)
      constructor <;> simp [matieresDelete, hfind, hpos]
    · intro hnil1 hnil2
      have hz1 : (db.lecons.filter (fun l => l.matieresId == id)).length = 0 := by
        rw [hnil1]; rfl
      have hz2 : (db.exercices.filter (fun e => e.matieresId == id)).length = 0 := by
        rw [hnil2]; rfl
      refine ⟨by simp [matieresDelete, hfind, hz1, hz2],
              by simp [matieresDelete, hfind, hz1, hz2], ?_⟩
      intro hnodup
      have hmem := List.mem_of_find?_eq_some hfind
      have hpid : p.id = id := by simpa using List.find?_some hfind
      have hlen := length_filter_key_ne (fun m : Matiere => m.id) db.matieres p hmem hnodup
      simp only [hpid] at hlen
      simpa [matieresDelete, hfind, hz1, hz2] using hlen
  · intro db id p hfind
    constructor
    · intro hne
      have hpos : 0 < (db.sousLecons.filter (fun s => s.leconsId == id)).length ∨
          0 < (db.exercices.filter (fun e => e.leconId == some id)).length ∨
          0 < (db.leconsUtilisateur.filter (fun x => x.leconsId == id)).length := by
        rcases hne with h | h | h
        · exact Or.inl (List.length_pos.mpr h)
        · exact Or.inr (Or.inl (List.length_pos.mpr h))
        · exact Or.inr (Or.inr (List.length_pos.mpr h))
      constructor <;> simp [leconsDelete, hfind, hpos]
    · intro hnil1 hnil2 hnil3
      have hz1 : (db.sousLecons.filter (fun s => s.leconsId == id)).length = 0 := by
        rw [hnil1]; rfl
      have hz2 : (db.exercices.filter (fun e => e.leconId == some id)).length = 0 := by
        rw [hnil2]; rfl
      have hz3 : (db.leconsUtilisateur.filter (fun x => x.leconsId == id)).length = 0 := by
        rw [hnil3]; rfl
      refine ⟨by simp [leconsDelete, hfind, hz1, hz2, hz3],
              by simp [leconsDelete, hfind, hz1, hz2, hz3], ?_⟩
      intro hnodup
      have hmem := List.mem_of_find?_eq_some hfind
      have hpid : p.id = id := by simpa using List.find?_some hfind
      have hlen := length_filter_key_ne (fun l : Lecon => l.id) db.lecons p hmem hnodup
      simp only [hpid] at hlen
      simpa [leconsDelete, hfind, hz1, hz2, hz3] using hlen
  · intro db id p hfind
    constructor
    · intro hne
      have hpos : 0 < (db.exercices.filter (fun e => e.sousLeconsId == some id)).length :=
        List.length_pos.mpr hne
      constructor <;> simp [sousLeconsDelete, hfind, hpos]
    · intro hnil
      have hz : (db.exercices.filter (fun e => e.sousLeconsId == some id)).length = 0 := by
        rw [hnil]; rfl
      refine ⟨by simp [sousLeconsDelete, hfind, hz],
              by simp [sousLeconsDelete, hfind, hz], ?_⟩
      intro hnodup
      have hmem := List.mem_of_find?_eq_some hfind
      have hpid : p.id = id := by simpa using List.find?_some hfind
      have hlen := length_filter_key_ne (fun s : SousLecon => s.id) db.sousLecons p hmem hnodup
      simp only [hpid] at hlen
      simpa [sousLeconsDelete, hfind, hz] using hlen

/-- Concrete store with one class, one subject under it, one lesson under the
subject and one sub-lesson under the lesson; the sub-lesson is childless. -/
def dbHier : DB :=
  { classes := [{ id := "c1", nom := "CM2" }],
    matieres := [{ id := "m1", nom := "Math", classesId := "c1" }],
    lecons := [{ id := "l1", nom := "Additions", matieresId := "m1" }],
    sousLecons := [{ id := "s1", nom := "Retenue", leconsId := "l1" }] }

/-- Witness for C2: on `dbHier`, deleting the class, the subject or the lesson
is blocked with 400 and an unchanged store (each has a child), while
deleting the childless sub-lesson answers 200 and removes exactly its
row. -/
theorem cascade_guard_blocks_then_deletes_witness :
    ((classesDelete dbHier "c1").1.status = 400 ∧ (classesDelete dbHier "c1").2 = dbHier)
    ∧ ((matieresDelete dbHier "m1").1.status = 400 ∧ (matieresDelete dbHier "m1").2 = dbHier)
    ∧ ((leconsDelete dbHier "l1").1.status = 400 ∧ (leconsDelete dbHier "l1").2 = dbHier)
    ∧ ((sousLeconsDelete dbHier "s1").1.status = 200
        ∧ (sousLeconsDelete dbHier "s1").2 =
            { dbHier with sousLecons := dbHier.sousLecons.filter (fun s => s.id != "s1") }
        ∧ ((dbHier.sousLecons.map (fun s => s.id)).Nodup →
            (sousLeconsDelete dbHier "s1").2.sousLecons.length + 1 = dbHier.sousLecons.length)) :=
  ⟨(cascade_guard_blocks_then_deletes.1 dbHier "c1" ⟨"c1", "CM2"⟩ (by decide)).1 (by decide),
   (cascade_guard_blocks_then_deletes.2.1 dbHier "m1" ⟨"m1", "Math", none, "c1"⟩
      (by decide)).1 (Or.inl (by decide)),
   (cascade_guard_blocks_then_deletes.2.2.1 dbHier "l1" ⟨"l1", "Additions", none, "m1"⟩
      (by decide)).1 (Or.inl (by decide)),
   (cascade_guard_blocks_then_deletes.2.2.2 dbHier "s1" ⟨"s1", "Retenue", none, "l1"⟩
      (by decide)).2 (by decide)⟩

/- ===================== Claim C1 ===================== -/

/-- C1 counterexample: the class "c1" of `dbHier` already holds the subject
"Math"; creating the sibling subject "math" — the same name, differing
only in letter case, under the same parent — does not fail with 400: the
subject duplicate query compares names with plain equality, so the
request succeeds with 201 and a second row is created. -/
theorem subject_create_case_variant_not_rejected :
    (∃ m ∈ dbHier.matieres, ciEq m.nom "math" = true ∧ m.nom ≠ "math"
      ∧ m.classesId = "c1")
    ∧ (matieresPost dbHier "math" none "c1" "m9").1.status = 201
    ∧ (matieresPost dbHier "math" none "c1" "m9").2.matieres.length = 2 := by
  refine ⟨⟨⟨"m1", "Math", none, "c1"⟩, by decide, by decide, by decide, rfl⟩, rfl, rfl⟩

/-- C1 (amended): creating a Class, Lesson or SubLesson whose name equals an
existing sibling's name up to letter case (under the same parent, the
parent existing for the scoped ones) fails with 400 and leaves the store
unchanged; the Subject creation endpoint, whose duplicate query compares
names with plain (case-sensitive) equality, rejects with 400 only an
exact-name sibling and creates a case-variant sibling with 201. -/
theorem scoped_name_uniqueness_create :
    (∀ (db : DB) (nom newId : String),
        (∃ c ∈ db.classes, ciEq c.nom nom = true) →
        (classesPost db nom newId).1.status = 400 ∧ (classesPost db nom newId).2 = db)
    ∧
    (∀ (db : DB) (nom : String) (d : Option String) (mid newId : String),
        (db.matieres.find? (fun m => m.id == mid)).isSome →
        (∃ l ∈ db.lecons, ciEq l.nom nom = true ∧ l.matieresId = mid) →
        (leconsPostNew db nom d mid newId).1.status = 400
        ∧ (leconsPostNew db nom d mid newId).2 = db)
    ∧
    (∀ (db : DB) (nom : String) (d : Option String) (lid newId : String),
        (db.lecons.find? (fun l => l.id == lid)).isSome →
        (∃ s ∈ db.sousLecons, ciEq s.nom nom = true ∧ s.leconsId = lid) →
        (sousLeconsPostNew db nom d lid newId).1.status = 400
        ∧ (sousLeconsPostNew db nom d lid newId).2 = db)
    ∧
    (∀ (db : DB) (nom : String) (d : Option String) (cid newId : String),
        (db.classes.find? (fun c => c.id == cid)).isSome →
        (∃ m ∈ db.matieres, m.nom = nom ∧ m.classesId = cid) →
        (matieresPost db nom d cid newId).1.status = 400
        ∧ (matieresPost db nom d cid newId).2 = db)
    ∧
    (∀ (db : DB) (nom : String) (d : Option String) (cid newId : String),
        (db.classes.find? (fun c => c.id == cid)).isSome →
        (∀ m ∈ db.matieres, ¬(m.nom = nom ∧ m.classesId = cid)) →
        (matieresPost db nom d cid newId).1.status = 201
        ∧ (matieresPost db nom d cid newId).2.matieres.length
            = db.matieres.length + 1) := by
  refine ⟨?_, ?_, ?_, ?_, ?_⟩
  · intro db nom newId hex
    obtain ⟨c, hcmem, hc⟩ := hex
    have hsome : (db.classes.find? (fun x => ciEq x.nom nom)).isSome :=
      List.find?_isSome.mpr ⟨c, hcmem, hc⟩
    cases hf : db.classes.find? (fun x => ciEq x.nom nom) with
    | none => rw [hf] at hsome; cases hsome
    | some w => exact ⟨by simp [classesPost, hf], by simp [classesPost, hf]⟩
  · intro db nom d mid newId hmx hex
    obtain ⟨pm, hpm⟩ := Option.isSome_iff_exists.mp hmx
    obtain ⟨l, hlmem, hl1, hl2⟩ := hex
    have hsome : (db.lecons.find? (fun x => ciEq x.nom nom && x.matieresId == mid)).isSome :=
      List.find?_isSome.mpr ⟨l, hlmem, by simp [hl1, hl2]⟩
    cases hf : db.lecons.find? (fun x => ciEq x.nom nom && x.matieresId == mid) with
    | none => rw [hf] at hsome; cases hsome
    | some w =>
        exact ⟨by simp [leconsPostNew, hpm, hf], by simp [leconsPostNew, hpm, hf]⟩
  · intro db nom d lid newId hlx hex
    obtain ⟨pl, hpl⟩ := Option.isSome_iff_exists.mp hlx
    obtain ⟨s, hsmem, hs1, hs2⟩ := hex
    have hsome : (db.sousLecons.find? (fun x => ciEq x.nom nom && x.leconsId == lid)).isSome :=
      List.find?_isSome.mpr ⟨s, hsmem, by simp [hs1, hs2]⟩
    cases hf : db.sousLecons.find? (fun x => ciEq x.nom nom && x.leconsId == lid) with
    | none => rw [hf] at hsome; cases hsome
    | some w =>
        exact ⟨by simp [sousLeconsPostNew, hpl, hf], by simp [sousLeconsPostNew, hpl, hf]⟩
  · intro db nom d cid newId hcx hex
    obtain ⟨pc, hpc⟩ := Option.isSome_iff_exists.mp hcx
    obtain ⟨m, hmmem, hm1, hm2⟩ := hex
    have hsome : (db.matieres.find? (fun x => x.nom == nom && x.classesId == cid)).isSome :=
      List.find?_isSome.mpr ⟨m, hmmem, by simp [hm1, hm2]⟩
    cases hf : db.matieres.find? (fun x => x.nom == nom && x.classesId == cid) with
    | none => rw [hf] at hsome; cases hsome
    | some w =>
        exact ⟨by simp [matieresPost, hpc, hf], by simp [matieresPost, hpc, hf]⟩
  · intro db nom d cid newId hcx hall
    obtain ⟨pc, hpc⟩ := Option.isSome_iff_exists.mp hcx
    have hnone : db.matieres.find? (fun x => x.nom == nom && x.classesId == cid) = none := by
      apply List.find?_eq_none.mpr
      intro x hx
      simpa using hall x hx
    constructor
    · simp [matieresPost, hpc, hnone]
    · simp [matieresPost, hpc, hnone]

/-- Witness for C1 (amended) on `dbHier`: a case-variant class name, lesson
name and sub-lesson name are each rejected with 400 and create nothing;
the exact subject name "Math" is rejected with 400; the case-variant
subject name "MATH" is accepted with 201 and adds a row. -/
theorem scoped_name_uniqueness_create_witness :
    ((classesPost dbHier "cm2" "c9").1.status = 400 ∧ (classesPost dbHier "cm2" "c9").2 = dbHier)
    ∧ ((leconsPostNew dbHier "ADDITIONS" none "m1" "l9").1.status = 400
        ∧ (leconsPostNew dbHier "ADDITIONS" none "m1" "l9").2 = dbHier)
    ∧ ((sousLeconsPostNew dbHier "RETENUE" none "l1" "s9").1.status = 400
        ∧ (sousLeconsPostNew dbHier "RETENUE" none "l1" "s9").2 = dbHier)
    ∧ ((matieresPost dbHier "Math" none "c1" "m9").1.status = 400
        ∧ (matieresPost dbHier "Math" none "c1" "m9").2 = dbHier)
    ∧ ((matieresPost dbHier "MATH" none "c1" "m9").1.status = 201
        ∧ (matieresPost dbHier "MATH" none "c1" "m9").2.matieres.length
            = dbHier.matieres.length + 1) :=
  ⟨scoped_name_uniqueness_create.1 dbHier "cm2" "c9" (by decide),
   scoped_name_uniqueness_create.2.1 dbHier "ADDITIONS" none "m1" "l9" (by decide) (by decide),
   scoped_name_uniqueness_create.2.2.1 dbHier "RETENUE" none "l1" "s9" (by decide) (by decide),
   scoped_name_uniqueness_create.2.2.2.1 dbHier "Math" none "c1" "m9" (by decide) (by decide),
   scoped_name_uniqueness_create.2.2.2.2 dbHier "MATH" none "c1" "m9" (by decide) (by decide)⟩

/- ===================== Claim C4 ===================== -/

/-- C4 counterexample: on the empty store, creating an exercise that
references the absent subject "m1" answers 404 — the status the claim
reserves for a missing path entity — and not 400. -/
theorem exercise_create_missing_parent_not_400 :
    (exercicesPost {} { nom := "Ex", matieresId := "m1" } "e1").1.status = 404
    ∧ ¬ (exercicesPost {} { nom := "Ex", matieresId := "m1" } "e1").1.status = 400 := by
  exact ⟨rfl, by decide⟩

/-- C4 (amended): the Subject, Lesson and SubLesson create and update
handlers answer 400 when a checked referenced parent id — supplied, and
for the Lesson/SubLesson updates also changed — does not resolve, the
store unchanged, and answer 404 when the path entity of an update does
not exist; the Exercise create and update handlers instead answer 404
for a missing referenced subject, sub-lesson or lesson — the same status
they use for a missing path entity — the store unchanged. -/
theorem referenced_parent_missing_status :
    (∀ (db : DB) (nom : String) (d : Option String) (cid newId : String),
        db.classes.find? (fun c => c.id == cid) = none →
        (matieresPost db nom d cid newId).1.status = 400
        ∧ (matieresPost db nom d cid newId).2 = db)
    ∧ (∀ (db : DB) (nom : String) (d : Option String) (mid newId : String),
        db.matieres.find? (fun m => m.id == mid) = none →
        (leconsPostNew db nom d mid newId).1.status = 400
        ∧ (leconsPostNew db nom d mid newId).2 = db)
    ∧ (∀ (db : DB) (nom : String) (d : Option String) (lid newId : String),
        db.lecons.find? (fun l => l.id == lid) = none →
        (sousLeconsPostNew db nom d lid newId).1.status = 400
        ∧ (sousLeconsPostNew db nom d lid newId).2 = db)
    ∧ (∀ (db : DB) (r : ExerciceReq) (newId : String),
        db.matieres.find? (fun m => m.id == r.matieresId) = none →
        (exercicesPost db r newId).1.status = 404
        ∧ (exercicesPost db r newId).2 = db)
    ∧ (∀ (db : DB) (r : ExerciceReq) (newId : String) (pm : Matiere) (sid : String),
        db.matieres.find? (fun m => m.id == r.matieresId) = some pm →
        r.sousLeconsId = some sid →
        db.sousLecons.find? (fun s => s.id == sid) = none →
        (exercicesPost db r newId).1.status = 404
        ∧ (exercicesPost db r newId).2 = db)
    ∧ (∀ (db : DB) (r : ExerciceReq) (newId : String) (pm : Matiere) (lid : String),
        db.matieres.find? (fun m => m.id == r.matieresId) = some pm →
        r.sousLeconsId = none →
        r.leconId = some lid →
        db.lecons.find? (fun l => l.id == lid) = none →
        (exercicesPost db r newId).1.status = 404
        ∧ (exercicesPost db r newId).2 = db)
    ∧ (∀ (db : DB) (id : String) (u : MatiereUpdate) (m : Matiere) (cid : String),
        db.matieres.find? (fun x => x.id == id) = some m →
        u.classesId = some cid →
        db.classes.find? (fun c => c.id == cid) = none →
        (matieresPut db id u).1.status = 400
        ∧ (matieresPut db id u).2 = db)
    ∧ (∀ (db : DB) (id : String) (u : LeconUpdate) (l : Lecon) (mid : String),
        db.lecons.find? (fun x => x.id == id) = some l →
        u.matieresId = some mid →
        mid ≠ l.matieresId →
        db.matieres.find? (fun m => m.id == mid) = none →
        (leconsPut db id u).1.status = 400
        ∧ (leconsPut db id u).2 = db)
    ∧ (∀ (db : DB) (id : String) (u : SousLeconUpdate) (sl : SousLecon) (lid : String),
        db.sousLecons.find? (fun x => x.id == id) = some sl →
        u.leconsId = some lid →
        lid ≠ sl.leconsId →
        db.lecons.find? (fun l => l.id == lid) = none →
        (sousLeconsPut db id u).1.status = 400
        ∧ (sousLeconsPut db id u).2 = db)
    ∧ (∀ (db : DB) (id : String) (u : ExerciceUpdate) (e : Exercice) (mid : String),
        db.exercices.find? (fun x => x.id == id) = some e →
        u.matieresId = some mid →
        db.matieres.find? (fun m => m.id == mid) = none →
        (exercicesPut db id u).1.status = 404
        ∧ (exercicesPut db id u).2 = db)
    ∧ (∀ (db : DB) (id : String) (u : ExerciceUpdate) (e : Exercice) (sid : String),
        db.exercices.find? (fun x => x.id == id) = some e →
        u.matieresId = none →
        u.sousLeconsId = some (some sid) →
        db.sousLecons.find? (fun s => s.id == sid) = none →
        (exercicesPut db id u).1.status = 404
        ∧ (exercicesPut db id u).2 = db)
    ∧ (∀ (db : DB) (id : String) (u : ExerciceUpdate) (e : Exercice) (lid : String),
        db.exercices.find? (fun x => x.id == id) = some e →
        u.matieresId = none →
        u.sousLeconsId = none →
        u.leconId = some (some lid) →
        db.lecons.find? (fun l => l.id == lid) = none →
        (exercicesPut db id u).1.status = 404
        ∧ (exercicesPut db id u).2 = db)
    ∧ (∀ (db : DB) (id : String) (u : MatiereUpdate),
        db.matieres.find? (fun x => x.id == id) = none →
        (matieresPut db id u).1.status = 404 ∧ (matieresPut db id u).2 = db)
    ∧ (∀ (db : DB) (id : String) (u : LeconUpdate),
        db.lecons.find? (fun x => x.id == id) = none →
        (leconsPut db id u).1.status = 404 ∧ (leconsPut db id u).2 = db)
    ∧ (∀ (db : DB) (id : String) (u : SousLeconUpdate),
        db.sousLecons.find? (fun x => x.id == id) = none →
        (sousLeconsPut db id u).1.status = 404 ∧ (sousLeconsPut db id u).2 = db)
    ∧ (∀ (db : DB) (id : String) (u : ExerciceUpdate),
        db.exercices.find? (fun x => x.id == id) = none →
        (exercicesPut db id u).1.status = 404 ∧ (exercicesPut db id u).2 = db) := by
  refine ⟨?_, ?_, ?_, ?_, ?_, ?_, ?_, ?_, ?_, ?_, ?_, ?_, ?_, ?_, ?_, ?_⟩
  · intro db nom d cid newId h
    exact ⟨by simp [matieresPost, h], by simp [matieresPost, h]⟩
  · intro db nom d mid newId h
    exact ⟨by simp [leconsPostNew, h], by simp [leconsPostNew, h]⟩
  · intro db nom d lid newId h
    exact ⟨by simp [sousLeconsPostNew, h], by simp [sousLeconsPostNew, h]⟩
  · intro db r newId h
    exact ⟨by simp [exercicesPost, h], by simp [exercicesPost, h]⟩
  · intro db r newId pm sid hm hs hfind
    exact ⟨by simp [exercicesPost, hm, hs, hfind], by simp [exercicesPost, hm, hs, hfind]⟩
  · intro db r newId pm lid hm hs hl hfind
    exact ⟨by simp [exercicesPost, hm, hs, hl, hfind],
           by simp [exercicesPost, hm, hs, hl, hfind]⟩
  · intro db id u m cid hfind hcid hnone
    exact ⟨by simp [matieresPut, hfind, hcid, hnone],
           by simp [matieresPut, hfind, hcid, hnone]⟩
  · intro db id u l mid hfind hmid hne hnone
    exact ⟨by simp [leconsPut, hfind, hmid, hnone, bne_iff_ne, hne],
           by simp [leconsPut, hfind, hmid, hnone, bne_iff_ne, hne]⟩
  · intro db id u sl lid hfind hlid hne hnone
    exact ⟨by simp [sousLeconsPut, hfind, hlid, hnone, bne_iff_ne, hne],
           by simp [sousLeconsPut, hfind, hlid, hnone, bne_iff_ne, hne]⟩
  · intro db id u e mid hfind hmid hnone
    exact ⟨by simp [exercicesPut, hfind, hmid, hnone],
           by simp [exercicesPut, hfind, hmid, hnone]⟩
  · intro db id u e sid hfind hm hs hnone
    exact ⟨by simp [exercicesPut, hfind, hm, hs, hnone],
           by simp [exercicesPut, hfind, hm, hs, hnone]⟩
  · intro db id u e lid hfind hm hs hl hnone
    exact ⟨by simp [exercicesPut, hfind, hm, hs, hl, hnone],
           by simp [exercicesPut, hfind, hm, hs, hl, hnone]⟩
  · intro db id u h
    exact ⟨by simp [matieresPut, h], by simp [matieresPut, h]⟩
  · intro db id u h
    exact ⟨by simp [leconsPut, h], by simp [leconsPut, h]⟩
  · intro db id u h
    exact ⟨by simp [sousLeconsPut, h], by simp [sousLeconsPut, h]⟩
  · intro db id u h
    exact ⟨by simp [exercicesPut, h], by simp [exercicesPut, h]⟩

/-- Store for the C4 exercise-update witness: the hierarchy of `dbHier` plus
one exercise. -/
def dbEx : DB :=
  { matieres := [{ id := "m1", nom := "Math", classesId := "c1" }],
    lecons := [{ id := "l1", nom := "Additions", matieresId := "m1" }],
    sousLecons := [{ id := "s1", nom := "Retenue", leconsId := "l1" }],
    exercices := [{ id := "e1", nom := "Q1", matieresId := "m1" }] }

/-- Witness for C4 (amended) on `dbHier` and `dbEx`: the scoped creates and
updates answer 400 when referencing the absent parent "zz"; the exercise
create and update answer 404 for each missing reference; every update
handler answers 404 for the absent path id "zz". -/
theorem referenced_parent_missing_status_witness :
    ((matieresPost dbHier "X" none "zz" "m9").1.status = 400
      ∧ (matieresPost dbHier "X" none "zz" "m9").2 = dbHier)
    ∧ ((leconsPostNew dbHier "X" none "zz" "l9").1.status = 400
      ∧ (leconsPostNew dbHier "X" none "zz" "l9").2 = dbHier)
    ∧ ((sousLeconsPostNew dbHier "X" none "zz" "s9").1.status = 400
      ∧ (sousLeconsPostNew dbHier "X" none "zz" "s9").2 = dbHier)
    ∧ ((exercicesPost dbHier { nom := "Ex", matieresId := "zz" } "e1").1.status = 404
      ∧ (exercicesPost dbHier { nom := "Ex", matieresId := "zz" } "e1").2 = dbHier)
    ∧ ((exercicesPost dbHier { nom := "Ex", matieresId := "m1", sousLeconsId := some "zz" } "e1").1.status = 404
      ∧ (exercicesPost dbHier { nom := "Ex", matieresId := "m1", sousLeconsId := some "zz" } "e1").2 = dbHier)
    ∧ ((exercicesPost dbHier { nom := "Ex", matieresId := "m1", leconId := some "zz" } "e1").1.status = 404
      ∧ (exercicesPost dbHier { nom := "Ex", matieresId := "m1", leconId := some "zz" } "e1").2 = dbHier)
    ∧ ((matieresPut dbHier "m1" { classesId := some "zz" }).1.status = 400
      ∧ (matieresPut dbHier "m1" { classesId := some "zz" }).2 = dbHier)
    ∧ ((leconsPut dbHier "l1" { matieresId := some "zz" }).1.status = 400
      ∧ (leconsPut dbHier "l1" { matieresId := some "zz" }).2 = dbHier)
    ∧ ((sousLeconsPut dbHier "s1" { leconsId := some "zz" }).1.status = 400
      ∧ (sousLeconsPut dbHier "s1" { leconsId := some "zz" }).2 = dbHier)
    ∧ ((exercicesPut dbEx "e1" { matieresId := some "zz" }).1.status = 404
      ∧ (exercicesPut dbEx "e1" { matieresId := some "zz" }).2 = dbEx)
    ∧ ((exercicesPut dbEx "e1" { sousLeconsId := some (some "zz") }).1.status = 404
      ∧ (exercicesPut dbEx "e1" { sousLeconsId := some (some "zz") }).2 = dbEx)
    ∧ ((exercicesPut dbEx "e1" { leconId := some (some "zz") }).1.status = 404
      ∧ (exercicesPut dbEx "e1" { leconId := some (some "zz") }).2 = dbEx)
    ∧ ((matieresPut dbHier "zz" { nom := some "X" }).1.status = 404
      ∧ (matieresPut dbHier "zz" { nom := some "X" }).2 = dbHier)
    ∧ ((leconsPut dbHier "zz" { nom := some "X" }).1.status = 404
      ∧ (leconsPut dbHier "zz" { nom := some "X" }).2 = dbHier)
    ∧ ((sousLeconsPut dbHier "zz" { nom := some "X" }).1.status = 404
      ∧ (sousLeconsPut dbHier "zz" { nom := some "X" }).2 = dbHier)
    ∧ ((exercicesPut dbEx "zz" { nom := some "X" }).1.status = 404
      ∧ (exercicesPut dbEx "zz" { nom := some "X" }).2 = dbEx) :=
  ⟨referenced_parent_missing_status.1 dbHier "X" none "zz" "m9" (by decide),
   referenced_parent_missing_status.2.1 dbHier "X" none "zz" "l9" (by decide),
   referenced_parent_missing_status.2.2.1 dbHier "X" none "zz" "s9" (by decide),
   referenced_parent_missing_status.2.2.2.1 dbHier { nom := "Ex", matieresId := "zz" } "e1" (by decide),
   referenced_parent_missing_status.2.2.2.2.1 dbHier
     { nom := "Ex", matieresId := "m1", sousLeconsId := some "zz" } "e1"
     ⟨"m1", "Math", none, "c1"⟩ "zz" (by decide) rfl (by decide),
   referenced_parent_missing_status.2.2.2.2.2.1 dbHier
     { nom := "Ex", matieresId := "m1", leconId := some "zz" } "e1"
     ⟨"m1", "Math", none, "c1"⟩ "zz" (by decide) rfl rfl (by decide),
   referenced_parent_missing_status.2.2.2.2.2.2.1 dbHier "m1" { classesId := some "zz" }
     ⟨"m1", "Math", none, "c1"⟩ "zz" (by decide) rfl (by decide),
   referenced_parent_missing_status.2.2.2.2.2.2.2.1 dbHier "l1" { matieresId := some "zz" }
     ⟨"l1", "Additions", none, "m1"⟩ "zz" (by decide) rfl (by decide) (by decide),
   referenced_parent_missing_status.2.2.2.2.2.2.2.2.1 dbHier "s1" { leconsId := some "zz" }
     ⟨"s1", "Retenue", none, "l1"⟩ "zz" (by decide) rfl (by decide) (by decide),
   referenced_parent_missing_status.2.2.2.2.2.2.2.2.2.1 dbEx "e1" { matieresId := some "zz" }
     ⟨"e1", "Q1", none, "m1", none, none, "QCM"⟩ "zz" (by decide) rfl (by decide),
   referenced_parent_missing_status.2.2.2.2.2.2.2.2.2.2.1 dbEx "e1"
     { sousLeconsId := some (some "zz") }
     ⟨"e1", "Q1", none, "m1", none, none, "QCM"⟩ "zz" (by decide) rfl rfl (by decide),
   referenced_parent_missing_status.2.2.2.2.2.2.2.2.2.2.2.1 dbEx "e1"
     { leconId := some (some "zz") }
     ⟨"e1", "Q1", none, "m1", none, none, "QCM"⟩ "zz" (by decide) rfl rfl rfl (by decide),
   referenced_parent_missing_status.2.2.2.2.2.2.2.2.2.2.2.2.1 dbHier "zz"
     { nom := some "X" } (by decide),
   referenced_parent_missing_status.2.2.2.2.2.2.2.2.2.2.2.2.2.1 dbHier "zz"
     { nom := some "X" } (by decide),
   referenced_parent_missing_status.2.2.2.2.2.2.2.2.2.2.2.2.2.2.1 dbHier "zz"
     { nom := some "X" } (by decide),
   referenced_parent_missing_status.2.2.2.2.2.2.2.2.2.2.2.2.2.2.2 dbEx "zz"
     { nom := some "X" } (by decide)⟩

/- ===================== Claim C5 ===================== -/

/-- Store for the C5 counterexample: two sibling subjects "Math" and "math"
in the class "c1" — a store the API itself can produce, since the subject
creation uniqueness check is case-sensitive. -/
def dbC5 : DB :=
  { classes := [{ id := "c1", nom := "CM2" }],
    matieres := [{ id := "m1", nom := "Math", classesId := "c1" },
                 { id := "m2", nom := "math", classesId := "c1" }] }

/-- C5 counterexample: updating the subject "m1" (named "Math") to "math" —
its own current name in a different case, same parent — does not succeed:
the duplicate query, though it excludes "m1" itself, matches the sibling
"m2" and the handler answers 400. -/
theorem subject_self_rename_case_variant_conflicts :
    (matieresPut dbC5 "m1" { nom := some "math" }).1.status = 400
    ∧ (matieresPut dbC5 "m1" { nom := some "math" }).2 = dbC5 := by
  exact ⟨rfl, by decide⟩

/-- C5 (amended): the update uniqueness comparison excludes the record's own
id, so the record itself never triggers the conflict: renaming a Class,
Lesson or SubLesson to its own name in the same case skips the check
entirely and succeeds; renaming it to its own name in a different case
succeeds whenever no OTHER sibling bears a case-insensitively equal name;
renaming a Subject to its own name (any case) succeeds whenever no other
sibling bears that exact name. -/
theorem update_uniqueness_excludes_own_id :
    (∀ (db : DB) (id : String) (c : Classe),
        db.classes.find? (fun x => x.id == id) = some c →
        (classesPut db id (some c.nom)).1.status = 200)
    ∧ (∀ (db : DB) (id : String) (c : Classe) (nom : String),
        db.classes.find? (fun x => x.id == id) = some c →
        (∀ x ∈ db.classes, ¬(ciEq x.nom nom = true ∧ x.id ≠ id)) →
        (classesPut db id (some nom)).1.status = 200)
    ∧ (∀ (db : DB) (id : String) (m : Matiere) (nom : String),
        db.matieres.find? (fun x => x.id == id) = some m →
        (∀ x ∈ db.matieres, ¬(x.nom = nom ∧ x.classesId = m.classesId ∧ x.id ≠ id)) →
        (matieresPut db id { nom := some nom }).1.status = 200)
    ∧ (∀ (db : DB) (id : String) (s : SousLecon),
        db.sousLecons.find? (fun x => x.id == id) = some s →
        (sousLeconsPut db id { nom := some s.nom }).1.status = 200)
    ∧ (∀ (db : DB) (id : String) (s : SousLecon) (nom : String),
        db.sousLecons.find? (fun x => x.id == id) = some s →
        (∀ x ∈ db.sousLecons, ¬(ciEq x.nom nom = true ∧ x.leconsId = s.leconsId ∧ x.id ≠ id)) →
        (sousLeconsPut db id { nom := some nom }).1.status = 200)
    ∧ (∀ (db : DB) (id : String) (l : Lecon),
        db.lecons.find? (fun x => x.id == id) = some l →
        (leconsPut db id { nom := some l.nom }).1.status = 200)
    ∧ (∀ (db : DB) (id : String) (l : Lecon) (nom : String),
        db.lecons.find? (fun x => x.id == id) = some l →
        (∀ x ∈ db.lecons, ¬(ciEq x.nom nom = true ∧ x.matieresId = l.matieresId ∧ x.id ≠ id)) →
        (leconsPut db id { nom := some nom }).1.status = 200) := by
  refine ⟨?_, ?_, ?_, ?_, ?_, ?_, ?_⟩
  · intro db id c hfind
    simp [classesPut, hfind]
  · intro db id c nom hfind hno
    have hnone : db.classes.find? (fun x => ciEq x.nom nom && x.id != id) = none := by
      apply List.find?_eq_none.mpr
      intro x hx
      have hx2 := hno x hx
      simp only [Bool.and_eq_true, bne_iff_ne]
      intro hcontra
      exact hx2 hcontra
    simp [classesPut, hfind, hnone]
  · intro db id m nom hfind hno
    have hnone : db.matieres.find? (fun x =>
        x.nom == nom && x.classesId == m.classesId && x.id != id) = none := by
      apply List.find?_eq_none.mpr
      intro x hx
      have hx2 := hno x hx
      simp only [Bool.and_eq_true, bne_iff_ne, beq_iff_eq]
      intro hcontra
      exact hx2 ⟨hcontra.1.1, hcontra.1.2, hcontra.2⟩
    simp [matieresPut, hfind, hnone]
  · intro db id s hfind
    simp [sousLeconsPut, hfind]
  · intro db id s nom hfind hno
    have hnone : db.sousLecons.find? (fun x =>
        ciEq x.nom nom && x.leconsId == s.leconsId && x.id != id) = none := by
      apply List.find?_eq_none.mpr
      intro x hx
      have hx2 := hno x hx
      simp only [Bool.and_eq_true, bne_iff_ne, beq_iff_eq]
      intro hcontra
      exact hx2 ⟨hcontra.1.1, hcontra.1.2, hcontra.2⟩
    simp [sousLeconsPut, hfind, hnone]
  · intro db id l hfind
    simp [leconsPut, hfind]
  · intro db id l nom hfind hno
    have hnone : db.lecons.find? (fun x =>
        ciEq x.nom nom && x.matieresId == l.matieresId && x.id != id) = none := by
      apply List.find?_eq_none.mpr
      intro x hx
      have hx2 := hno x hx
      simp only [Bool.and_eq_true, bne_iff_ne, beq_iff_eq]
      intro hcontra
      exact hx2 ⟨hcontra.1.1, hcontra.1.2, hcontra.2⟩
    simp [leconsPut, hfind, hnone]

/-- Witness for C5 (amended) on `dbHier`: renaming the class to "CM2" and to
"cm2", the subject to its own exact name "Math" and to "MATH", the
sub-lesson to "Retenue" and to "RETENUE", and the lesson to "Additions"
and to "ADDITIONS" all succeed with 200. -/
theorem update_uniqueness_excludes_own_id_witness :
    (classesPut dbHier "c1" (some "CM2")).1.status = 200
    ∧ (classesPut dbHier "c1" (some "cm2")).1.status = 200
    ∧ (matieresPut dbHier "m1" { nom := some "Math" }).1.status = 200
    ∧ (matieresPut dbHier "m1" { nom := some "MATH" }).1.status = 200
    ∧ (sousLeconsPut dbHier "s1" { nom := some "Retenue" }).1.status = 200
    ∧ (sousLeconsPut dbHier "s1" { nom := some "RETENUE" }).1.status = 200
    ∧ (leconsPut dbHier "l1" { nom := some "Additions" }).1.status = 200
    ∧ (leconsPut dbHier "l1" { nom := some "ADDITIONS" }).1.status = 200 :=
  ⟨update_uniqueness_excludes_own_id.1 dbHier "c1" ⟨"c1", "CM2"⟩ (by decide),
   update_uniqueness_excludes_own_id.2.1 dbHier "c1" ⟨"c1", "CM2"⟩ "cm2" (by decide) (by decide),
   update_uniqueness_excludes_own_id.2.2.1 dbHier "m1" ⟨"m1", "Math", none, "c1"⟩ "Math"
     (by decide) (by decide),
   update_uniqueness_excludes_own_id.2.2.1 dbHier "m1" ⟨"m1", "Math", none, "c1"⟩ "MATH"
     (by decide) (by decide),
   update_uniqueness_excludes_own_id.2.2.2.1 dbHier "s1" ⟨"s1", "Retenue", none, "l1"⟩
     (by decide),
   update_uniqueness_excludes_own_id.2.2.2.2.1 dbHier "s1" ⟨"s1", "Retenue", none, "l1"⟩ "RETENUE"
     (by decide) (by decide),
   update_uniqueness_excludes_own_id.2.2.2.2.2.1 dbHier "l1" ⟨"l1", "Additions", none, "m1"⟩
     (by decide),
   update_uniqueness_excludes_own_id.2.2.2.2.2.2 dbHier "l1" ⟨"l1", "Additions", none, "m1"⟩
     "ADDITIONS" (by decide) (by decide)⟩

/- ===================== Claim C3 ===================== -/

/-- Store for the C3 failing input: two classes. -/
def dbC3 : DB :=
  { classes := [{ id := "c1", nom := "CM2" }, { id := "c2", nom := "Terminale" }] }

/-- C3 failing input (code bug): on a store of N = 2 classes, GET /classes
with limit 1 and offset 0 does return min(1, 2) = 1 row, but the
pagination `total` is the serialised `undefined` (the stray
`console.log` inside the `Promise.all` array shifts the destructuring
away from the real count) and `hasMore` is `false` although
0 + 1 < 2; moreover with a `search` parameter the returned page ignores
the filter the claim requires: searching "cm" still returns both rows,
"Terminale" included. -/
theorem classes_list_pagination_broken :
    (classesGetList dbC3 1 0 none).dataRows.length = 1
    ∧ (classesGetList dbC3 1 0 none).pagination.total = none
    ∧ (classesGetList dbC3 1 0 none).pagination.hasMore = false
    ∧ 0 + 1 < dbC3.classes.length
    ∧ (classesGetList dbC3 50 0 (some "cm")).dataRows = dbC3.classes := by decide

/- ===================== Claim C6 ===================== -/

/-- C6: with a correct email and a correct password, login answers 200 and the
signed payload's `exp` is the issuance second (the floor of `Date.now()`
divided by 1000 — hence within one second of the issuance time) plus 72
hours; with an unknown email or a wrong password the whole response is
the same 400 "Email ou mot de passe incorrect" envelope, which names
neither field. -/
theorem login_token_and_generic_errors :
    (∀ (hash : String → String) (db : DB) (email password : String) (nowMs : Nat)
        (u : UserRec),
        db.users.find? (fun v => v.email == email) = some u →
        hash password = u.password →
        (loginPost hash db email password nowMs).1.status = 200
        ∧ (loginPost hash db email password nowMs).1.tokenExp
            = some (nowMs / 1000 + 72 * 60 * 60)
        ∧ nowMs / 1000 * 1000 ≤ nowMs ∧ nowMs < (nowMs / 1000 + 1) * 1000)
    ∧ (∀ (hash : String → String) (db : DB) (email password : String) (nowMs : Nat),
        db.users.find? (fun v => v.email == email) = none →
        (loginPost hash db email password nowMs).1
          = { status := 400, error := some "Email ou mot de passe incorrect" })
    ∧ (∀ (hash : String → String) (db : DB) (email password : String) (nowMs : Nat)
        (u : UserRec),
        db.users.find? (fun v => v.email == email) = some u →
        hash password ≠ u.password →
        (loginPost hash db email password nowMs).1
          = { status := 400, error := some "Email ou mot de passe incorrect" }) := by
  refine ⟨?_, ?_, ?_⟩
  · intro hash db email password nowMs u hfind hpw
    refine ⟨by simp [loginPost, hfind, hpw], by simp [loginPost, hfind, hpw], ?_, ?_⟩
    · omega
    · omega
  · intro hash db email password nowMs hnone
    simp [loginPost, hnone]
  · intro hash db email password nowMs u hfind hne
    simp [loginPost, hfind, hne]

/-- Hash used by the witnesses: a stand-in digest. -/
def hashW : String → String := fun s => s ++ "#"

/-- Store for the C6 witness: one user whose stored digest is
`hashW "secret"`. -/
def dbC6 : DB :=
  { users := [{ id := "u1", email := "a@b.c", password := "secret#" }] }

/-- Witness for C6: the correct password logs in with 200 and the expected
`exp`; the unknown email and the wrong password both produce the same 400
envelope. -/
theorem login_token_and_generic_errors_witness :
    ((loginPost hashW dbC6 "a@b.c" "secret" 1700000000123).1.status = 200
      ∧ (loginPost hashW dbC6 "a@b.c" "secret" 1700000000123).1.tokenExp
          = some (1700000000123 / 1000 + 72 * 60 * 60)
      ∧ 1700000000123 / 1000 * 1000 ≤ 1700000000123
      ∧ 1700000000123 < (1700000000123 / 1000 + 1) * 1000)
    ∧ (loginPost hashW dbC6 "x@y.z" "secret" 1700000000123).1
        = { status := 400, error := some "Email ou mot de passe incorrect" }
    ∧ (loginPost hashW dbC6 "a@b.c" "wrong" 1700000000123).1
        = { status := 400, error := some "Email ou mot de passe incorrect" } :=
  ⟨login_token_and_generic_errors.1 hashW dbC6 "a@b.c" "secret" 1700000000123
     ⟨"u1", "a@b.c", none, none, "secret#", none, none, "ELEVE"⟩ (by decide) (by decide),
   login_token_and_generic_errors.2.1 hashW dbC6 "x@y.z" "secret" 1700000000123 (by decide),
   login_token_and_generic_errors.2.2 hashW dbC6 "a@b.c" "wrong" 1700000000123
     ⟨"u1", "a@b.c", none, none, "secret#", none, none, "ELEVE"⟩ (by decide) (by decide)⟩

/- ===================== Claim C7 ===================== -/

/-- C7 (code bug): registering a fresh email on the empty store succeeds with
201 and the response type carries no password field, but the stored role
is the literal "USER" — not a member of the schema's `TypesUtilisateur`
enum, whose default `ELEVE` is the role the spec names STUDENT. -/
theorem register_role_not_student :
    (registerPost hashW {} "a@b.c" none none "secret1" none "u1").1.status = 201
    ∧ (∀ u ∈ (registerPost hashW {} "a@b.c" none none "secret1" none "u1").2.users,
        u.typesUtilisateur = "USER")
    ∧ "USER" ∉ typesUtilisateurValues
    ∧ "ELEVE" ∈ typesUtilisateurValues
    ∧ (registerPost hashW {} "a@b.c" none none "secret1" none "u1").1.userRole
        = some "USER" := by decide

/- ===================== Claim C8 ===================== -/

/-- C9: creating an answer option — through the single create endpoint or the
bulk endpoint — for an exercise whose `typesExercice` is not QCM answers
400 and creates no option row; a missing exercise answers 404 and creates
none either; option rows are created (201) exactly when the referenced
exercise exists with type QCM. -/
theorem option_create_requires_qcm_exercise :
    (∀ (db : DB) (eid : String) (r : OptionReq) (newId : String) (ex : Exercice),
        db.exercices.find? (fun e => e.id == eid) = some ex →
        ex.typesExercice ≠ "QCM" →
        (optionsQCMPost db eid r newId).1.status = 400
        ∧ (optionsQCMPost db eid r newId).2 = db)
    ∧ (∀ (db : DB) (eid : String) (opts : List OptionReq) (newIds : List String)
        (ex : Exercice),
        db.exercices.find? (fun e => e.id == eid) = some ex →
        ex.typesExercice ≠ "QCM" →
        (optionsQCMBulkPost db eid opts newIds).1.status = 400
        ∧ (optionsQCMBulkPost db eid opts newIds).2 = db)
    ∧ (∀ (db : DB) (eid : String) (r : OptionReq) (newId : String),
        db.exercices.find? (fun e => e.id == eid) = none →
        (optionsQCMPost db eid r newId).1.status = 404
        ∧ (optionsQCMPost db eid r newId).2 = db)
    ∧ (∀ (db : DB) (eid : String) (opts : List OptionReq) (newIds : List String),
        db.exercices.find? (fun e => e.id == eid) = none →
        (optionsQCMBulkPost db eid opts newIds).1.status = 404
        ∧ (optionsQCMBulkPost db eid opts newIds).2 = db)
    ∧ (∀ (db : DB) (eid : String) (r : OptionReq) (newId : String) (ex : Exercice),
        db.exercices.find? (fun e => e.id == eid) = some ex →
        ex.typesExercice = "QCM" →
        (optionsQCMPost db eid r newId).1.status = 201
        ∧ (optionsQCMPost db eid r newId).2.optionsQCM.length
            = db.optionsQCM.length + 1) := by
  refine ⟨?_, ?_, ?_, ?_, ?_⟩
  · intro db eid r newId ex hfind hty
    exact ⟨by simp [optionsQCMPost, hfind, hty, bne_iff_ne],
           by simp [optionsQCMPost, hfind, hty, bne_iff_ne]⟩
  · intro db eid opts newIds ex hfind hty
    exact ⟨by simp [optionsQCMBulkPost, hfind, hty, bne_iff_ne],
           by simp [optionsQCMBulkPost, hfind, hty, bne_iff_ne]⟩
  · intro db eid r newId hnone
    exact ⟨by simp [optionsQCMPost, hnone], by simp [optionsQCMPost, hnone]⟩
  · intro db eid opts newIds hnone
    exact ⟨by simp [optionsQCMBulkPost, hnone], by simp [optionsQCMBulkPost, hnone]⟩
  · intro db eid r newId ex hfind hty
    exact ⟨by simp [optionsQCMPost, hfind, hty],
           by simp [optionsQCMPost, hfind, hty]⟩

/-- Store for the C9 witness: a QCM exercise "e1" and a non-QCM exercise
"e2". -/
def dbC9 : DB :=
  { matieres := [{ id := "m1", nom := "Math", classesId := "c1" }],
    exercices := [{ id := "e1", nom := "Q1", matieresId := "m1", typesExercice := "QCM" },
                  { id := "e2", nom := "R1", matieresId := "m1",
                    typesExercice := "REDACTION" }] }

/-- Witness for C9 on `dbC9`: the non-QCM exercise rejects the single and the
bulk create with 400 and no new row; the unknown exercise id answers 404;
the QCM exercise accepts the single create with 201 and one new row. -/
theorem option_create_requires_qcm_exercise_witness :
    ((optionsQCMPost dbC9 "e2" { nom := "A" } "o1").1.status = 400
      ∧ (optionsQCMPost dbC9 "e2" { nom := "A" } "o1").2 = dbC9)
    ∧ ((optionsQCMBulkPost dbC9 "e2" [{ nom := "A" }, { nom := "B" }] ["o1", "o2"]).1.status = 400
      ∧ (optionsQCMBulkPost dbC9 "e2" [{ nom := "A" }, { nom := "B" }] ["o1", "o2"]).2 = dbC9)
    ∧ ((optionsQCMPost dbC9 "e9" { nom := "A" } "o1").1.status = 404
      ∧ (optionsQCMPost dbC9 "e9" { nom := "A" } "o1").2 = dbC9)
    ∧ ((optionsQCMBulkPost dbC9 "e9" [{ nom := "A" }] ["o1"]).1.status = 404
      ∧ (optionsQCMBulkPost dbC9 "e9" [{ nom := "A" }] ["o1"]).2 = dbC9)
    ∧ ((optionsQCMPost dbC9 "e1" { nom := "A" } "o1").1.status = 201
      ∧ (optionsQCMPost dbC9 "e1" { nom := "A" } "o1").2.optionsQCM.length
          = dbC9.optionsQCM.length + 1) :=
  ⟨option_create_requires_qcm_exercise.1 dbC9 "e2" { nom := "A" } "o1"
     ⟨"e2", "R1", none, "m1", none, none, "REDACTION"⟩ (by decide) (by decide),
   option_create_requires_qcm_exercise.2.1 dbC9 "e2" [{ nom := "A" }, { nom := "B" }]
     ["o1", "o2"] ⟨"e2", "R1", none, "m1", none, none, "REDACTION"⟩ (by decide) (by decide),
   option_create_requires_qcm_exercise.2.2.1 dbC9 "e9" { nom := "A" } "o1" (by decide),
   option_create_requires_qcm_exercise.2.2.2.1 dbC9 "e9" [{ nom := "A" }] ["o1"] (by decide),
   option_create_requires_qcm_exercise.2.2.2.2 dbC9 "e1" { nom := "A" } "o1"
     ⟨"e1", "Q1", none, "m1", none, none, "QCM"⟩ (by decide) (by decide)⟩

/- ===================== Claim C10 ===================== -/

/-- Store for the C10 counterexample and witness: one exercise with one
dependent option and one dependent answer. -/
def dbC10 : DB :=
  { exercices := [{ id := "e1", nom := "Q1", matieresId := "m1" }],
    optionsQCM := [{ id := "o1", nom := "A", exercicesId := "e1" }],
    reponses := [{ id := "r1", nom := "Rep", exercicesId := "e1" }] }

/-- C10 counterexample: on `dbC10` the exercise "e1" has a dependent option
and a dependent answer; deleting it does not remove the exercise and does
not answer success with counts — the FK-enforced ON DELETE RESTRICT of
the migration makes the delete throw, and the handler answers 500 with
the store unchanged. -/
theorem exercise_delete_with_dependents_not_removed :
    dbC10.optionsQCM.filter (fun o => o.exercicesId == "e1") ≠ []
    ∧ dbC10.reponses.filter (fun r => r.exercicesId == "e1") ≠ []
    ∧ (exercicesDelete dbC10 "e1").1.status = 500
    ∧ ¬ (exercicesDelete dbC10 "e1").1.status = 200
    ∧ (exercicesDelete dbC10 "e1").2 = dbC10 := by decide

/-- C10 (amended): the exercise delete handler has no application-level
cascade guard and attempts the delete unconditionally after reading the
dependent counts, but the storage layer enforces ON DELETE RESTRICT on
both dependent relations: with at least one dependent option or answer
row the delete throws and the handler answers 500 with nothing removed;
with zero dependent rows it answers 200, removes exactly the exercise
rows bearing that id (exactly that row when exercise ids are pairwise
distinct) and reports the dependent counts read at deletion time (both
zero). -/
theorem exercise_delete_restricted_or_removed :
    (∀ (db : DB) (id : String) (ex : Exercice),
        db.exercices.find? (fun e => e.id == id) = some ex →
        (db.optionsQCM.filter (fun o => o.exercicesId == id) ≠ [] ∨
         db.reponses.filter (fun r => r.exercicesId == id) ≠ []) →
        (exercicesDelete db id).1.status = 500
        ∧ (exercicesDelete db id).2 = db)
    ∧ (∀ (db : DB) (id : String) (ex : Exercice),
        db.exercices.find? (fun e => e.id == id) = some ex →
        db.optionsQCM.filter (fun o => o.exercicesId == id) = [] →
        db.reponses.filter (fun r => r.exercicesId == id) = [] →
        (exercicesDelete db id).1.status = 200
        ∧ (exercicesDelete db id).2.exercices = db.exercices.filter (fun e => e.id != id)
        ∧ (exercicesDelete db id).2.optionsQCM = db.optionsQCM
        ∧ (exercicesDelete db id).2.reponses = db.reponses
        ∧ (exercicesDelete db id).1.deletedOptions
            = some (db.optionsQCM.filter (fun o => o.exercicesId == id)).length
        ∧ (exercicesDelete db id).1.deletedReponses
            = some (db.reponses.filter (fun r => r.exercicesId == id)).length
        ∧ ((db.exercices.map (fun e => e.id)).Nodup →
            (exercicesDelete db id).2.exercices.length + 1 = db.exercices.length)) := by
  constructor
  · intro db id ex hfind hdep
    have hpos : 0 < (db.optionsQCM.filter (fun o => o.exercicesId == id)).length ∨
        0 < (db.reponses.filter (fun r => r.exercicesId == id)).length := by
      rcases hdep with h | h
      · exact Or.inl (List.length_pos.mpr h)
      · exact Or.inr (List.length_pos.mpr h)
    exact ⟨by simp [exercicesDelete, hfind, hpos], by simp [exercicesDelete, hfind, hpos]⟩
  · intro db id ex hfind hnil1 hnil2
    have hz1 : (db.optionsQCM.filter (fun o => o.exercicesId == id)).length = 0 := by
      rw [hnil1]; rfl
    have hz2 : (db.reponses.filter (fun r => r.exercicesId == id)).length = 0 := by
      rw [hnil2]; rfl
    refine ⟨by simp [exercicesDelete, hfind, hz1, hz2],
            by simp [exercicesDelete, hfind, hz1, hz2],
            by simp [exercicesDelete, hfind, hz1, hz2],
            by simp [exercicesDelete, hfind, hz1, hz2],
            by simp [exercicesDelete, hfind, hz1, hz2],
            by simp [exercicesDelete, hfind, hz1, hz2], ?_⟩
    intro hnodup
    have hmem := List.mem_of_find?_eq_some hfind
    have hpid : ex.id = id := by simpa using List.find?_some hfind
    have hlen := length_filter_key_ne (fun e : Exercice => e.id) db.exercices ex hmem hnodup
    simp only [hpid] at hlen
    simpa [exercicesDelete, hfind, hz1, hz2] using hlen

/-- Store for the C10 success-branch witness: one exercise with no dependent
rows. -/
def dbC10b : DB :=
  { exercices := [{ id := "e1", nom := "Q1", matieresId := "m1" }] }

/-- Witness for C10 (amended): on `dbC10` the delete of the exercise with
dependents answers 500 and changes nothing; on `dbC10b` the delete of the
dependent-free exercise answers 200, removes its row and reports zero
dependent counts. -/
theorem exercise_delete_restricted_or_removed_witness :
    ((exercicesDelete dbC10 "e1").1.status = 500
      ∧ (exercicesDelete dbC10 "e1").2 = dbC10)
    ∧ ((exercicesDelete dbC10b "e1").1.status = 200
      ∧ (exercicesDelete dbC10b "e1").2.exercices
          = dbC10b.exercices.filter (fun e => e.id != "e1")
      ∧ (exercicesDelete dbC10b "e1").2.optionsQCM = dbC10b.optionsQCM
      ∧ (exercicesDelete dbC10b "e1").2.reponses = dbC10b.reponses
      ∧ (exercicesDelete dbC10b "e1").1.deletedOptions
          = some (dbC10b.optionsQCM.filter (fun o => o.exercicesId == "e1")).length
      ∧ (exercicesDelete dbC10b "e1").1.deletedReponses
          = some (dbC10b.reponses.filter (fun r => r.exercicesId == "e1")).length
      ∧ ((dbC10b.exercices.map (fun e => e.id)).Nodup →
          (exercicesDelete dbC10b "e1").2.exercices.length + 1
            = dbC10b.exercices.length)) :=
  ⟨exercise_delete_restricted_or_removed.1 dbC10 "e1"
     ⟨"e1", "Q1", none, "m1", none, none, "QCM"⟩ (by decide) (Or.inl (by decide)),
   exercise_delete_restricted_or_removed.2 dbC10b "e1"
     ⟨"e1", "Q1", none, "m1", none, none, "QCM"⟩ (by decide) (by decide) (by decide)⟩

end Studly
